import Mathlib

/-!
Verification of the per-conversation session-state engine of the
wyvate-agent-getKit repository: entity registry, shopping cart, bounded
message history, pagination cursor, and workflow dispatch.

The TypeScript source (src/services/memory.ts, src/vendorFlow/*.ts,
src/flows/nearbyVendors/*.ts) is embedded shallowly: the module-level
mutable `Map<chatId, UserMemory>` becomes explicit state passing over an
association list, `Date` values become natural-number timestamps supplied
by the caller, and JavaScript truthiness (`x || d`, `!!x`, `if (x)`) is
modelled explicitly where the source relies on it.
-/

namespace WyvateAgent

/-- `type` field of a `StoreItem` (types/memory.ts). -/
inductive StoreType
  | vendor
  | service
  | category
deriving DecidableEq, Repr

/-- `StoreItem` from types/memory.ts; `lastMentioned : Date` is modelled as a
natural-number timestamp. -/
structure StoreItem where
  type : StoreType
  id : Nat
  name : String
  vendorId : Option Nat := none
  categoryId : Option Nat := none
  lastMentioned : Nat
deriving DecidableEq, Repr

/-- `CartItem` from types/memory.ts. `quantity` and `price` are JavaScript
numbers that the code manipulates arithmetically, modelled as integers;
`addedAt : Date` is a natural-number timestamp. -/
structure CartItem where
  serviceId : Nat
  serviceName : String
  vendorId : Nat
  vendorName : String
  price : Int
  quantity : Int
  addedAt : Nat
  discount : Option Int := none
  discountType : Option String := none
  veg : Option Bool := none
  categoryId : Option Nat := none
  categoryName : Option String := none
deriving DecidableEq, Repr

/-- Message role (`"user" | "assistant"`). -/
inductive Role
  | user
  | assistant
deriving DecidableEq, Repr

/-- `ChatMessage` from types/memory.ts. -/
structure ChatMessage where
  role : Role
  content : String
  timestamp : Nat
deriving DecidableEq, Repr

/-- `UserLocation` from types/memory.ts; coordinates as integers (no claim
computes with them). -/
structure UserLocation where
  latitude : Int
  longitude : Int
  name : String
deriving DecidableEq, Repr

/-- `LastShownService` from types/memory.ts. -/
structure LastShownService where
  serviceId : Nat
  serviceName : String
  vendorId : Nat
  vendorName : String
  price : Int
  discount : Option Int := none
  discountType : Option String := none
  veg : Option Bool := none
  categoryId : Option Nat := none
  categoryName : Option String := none
  shownAt : Nat
deriving DecidableEq, Repr

/-- `UserMemory` from types/memory.ts: the per-conversation record. -/
structure UserMemory where
  messages : List ChatMessage
  location : Option UserLocation
  store : List StoreItem
  cart : List CartItem
  lastServicePage : Nat
  lastShownServices : List LastShownService
deriving DecidableEq, Repr

/-- The fresh record `ensureUserMemory` installs (memory.ts lines 34-41). -/
def emptyUserMemory : UserMemory :=
  { messages := []
  , location := none
  , store := []
  , cart := []
  , lastServicePage := 0
  , lastShownServices := [] }

/-- The module-level `Map<chatId, UserMemory>` of memory.ts, modelled as an
association list threaded through every operation. -/
abbrev MemoryMap := List (String × UserMemory)

/-- `Map.set`: replace the value at an existing key, else append the pair. -/
def mapSet : MemoryMap → String → UserMemory → MemoryMap
  | [], k, v => [(k, v)]
  | (k', v') :: rest, k, v =>
      if k' == k then (k, v) :: rest else (k', v') :: mapSet rest k v

/-- `ensureUserMemory` (memory.ts): insert an empty record when the key is
absent, and return the record for the key together with the updated map. -/
def ensureUserMemory (m : MemoryMap) (chatId : String) : UserMemory × MemoryMap :=
  match m.lookup chatId with
  | some um => (um, m)
  | none => (emptyUserMemory, mapSet m chatId emptyUserMemory)

/-! ### JavaScript truthiness helpers -/

/-- `x || d` on a possibly-absent JavaScript number (0 is falsy). -/
def jsOrNat (x : Option Nat) (d : Nat) : Nat :=
  match x with
  | none => d
  | some n => if n == 0 then d else n

/-- `x || d` on a JavaScript number known to be present (0 is falsy). -/
def jsOrInt (x : Int) (d : Int) : Int :=
  if x == 0 then d else x

/-- `x || d` on a possibly-absent JavaScript string (`""` is falsy). -/
def jsOrStr (x : Option String) (d : String) : String :=
  match x with
  | none => d
  | some s => if s == "" then d else s

/-- `!!x` on a possibly-absent JavaScript string. -/
def truthyOptStr : Option String → Bool
  | none => false
  | some s => !(s == "")

/-- `str.toLowerCase()`, modelled character by character (so that it
computes inside the kernel, unlike `String.toLower`). -/
def jsToLowerCase (s : String) : String :=
  ⟨s.data.map Char.toLower⟩

/-- `str.trim()`: drop whitespace from both ends. -/
def jsTrim (s : String) : String :=
  ⟨((s.data.dropWhile Char.isWhitespace).reverse.dropWhile Char.isWhitespace).reverse⟩

/-- `if (x)` on a possibly-absent JavaScript number (0 is falsy). -/
def truthyOptNat : Option Nat → Bool
  | none => false
  | some n => !(n == 0)

/-! ### Message history (memory.ts `saveMessage`, `getChatHistory`) -/

/-- The body of `saveMessage` acting on one conversation's `messages` array:
push the new message, then `shift()` the oldest one when the length
exceeds 100 (memory.ts lines 56-65). -/
def appendMessageCore (msgs : List ChatMessage) (msg : ChatMessage) : List ChatMessage :=
  let pushed := msgs ++ [msg]
  if pushed.length > 100 then pushed.tail else pushed

/-- `saveMessage` (memory.ts lines 49-66): ensure the record exists, then
append with bounded-history eviction. -/
def saveMessage (m : MemoryMap) (chatId : String) (role : Role) (content : String)
    (now : Nat) : MemoryMap :=
  let (um, m') := ensureUserMemory m chatId
  mapSet m' chatId { um with messages := appendMessageCore um.messages ⟨role, content, now⟩ }

/-- `getChatHistory` (memory.ts lines 71-82): last `limit` messages; returns
`[]` for an unknown chat id and never creates the record. The unchanged map
is returned to make the absence of mutation explicit. -/
def getChatHistory (m : MemoryMap) (chatId : String) (limit : Nat) :
    List ChatMessage × MemoryMap :=
  match m.lookup chatId with
  | none => ([], m)
  | some um => (um.messages.reverse.take limit |>.reverse, m)

/-- `getUserLocation` (memory.ts lines 87-90): `userMemory?.location || null`;
never creates the record. -/
def getUserLocation (m : MemoryMap) (chatId : String) : Option UserLocation × MemoryMap :=
  match m.lookup chatId with
  | none => (none, m)
  | some um => (um.location, m)

/-- `saveUserLocation` (memory.ts lines 95-101): ensure, then replace. -/
def saveUserLocation (m : MemoryMap) (chatId : String) (location : UserLocation) :
    MemoryMap :=
  let (um, m') := ensureUserMemory m chatId
  mapSet m' chatId { um with location := some location }

/-! ### Entity registry (memory.ts `saveStoreItem` and lookups) -/

/-- The duplicate test of `saveStoreItem` (memory.ts lines 146-151): same
`type`, same `id`, case-insensitive same `name`. -/
def storeKeyMatches (existing item : StoreItem) : Bool :=
  existing.type == item.type && existing.id == item.id &&
    jsToLowerCase existing.name == jsToLowerCase item.name

/-- One step of the stable descending sort by `lastMentioned`: place `x`
before the first element it is `≥`, matching the stable JavaScript
`sort((a, b) => b.lastMentioned - a.lastMentioned)`. -/
def insertByLastMentioned (x : StoreItem) : List StoreItem → List StoreItem
  | [] => [x]
  | y :: ys =>
      if y.lastMentioned ≤ x.lastMentioned then x :: y :: ys
      else y :: insertByLastMentioned x ys

/-- Stable sort by `lastMentioned` descending (memory.ts lines 164-166). -/
def sortByLastMentionedDesc : List StoreItem → List StoreItem
  | [] => []
  | x :: xs => insertByLastMentioned x (sortByLastMentionedDesc xs)

/-- The dedupe step of `saveStoreItem` (memory.ts lines 146-159):
`findIndex` on the identity key, then replace in place or push. -/
def upsertStoreItem (store : List StoreItem) (item : StoreItem) : List StoreItem :=
  match store.findIdx? (fun existing => storeKeyMatches existing item) with
  | some i => store.set i item
  | none => store ++ [item]

/-- The body of `saveStoreItem` acting on one conversation's `store` array
(memory.ts lines 146-168): dedupe, then sort-and-truncate to the most
recent 500 on overflow. -/
def saveStoreItemCore (store : List StoreItem) (item : StoreItem) : List StoreItem :=
  let upserted := upsertStoreItem store item
  if upserted.length > 500 then (sortByLastMentionedDesc upserted).take 500
  else upserted

/-- `saveStoreItem` (memory.ts lines 139-169). -/
def saveStoreItem (m : MemoryMap) (chatId : String) (item : StoreItem) : MemoryMap :=
  let (um, m') := ensureUserMemory m chatId
  mapSet m' chatId { um with store := saveStoreItemCore um.store item }

/-- `getVendorId` (memory.ts lines 174-187): case-insensitive exact match on
vendor entries; `vendor?.id || null` makes a zero id fall back to null. -/
def getVendorId (m : MemoryMap) (chatId : String) (vendorName : String) : Option Nat :=
  match m.lookup chatId with
  | none => none
  | some um =>
    let searchName := jsTrim (jsToLowerCase vendorName)
    match um.store.find? (fun item =>
        item.type == StoreType.vendor && jsToLowerCase item.name == searchName) with
    | some v => if v.id == 0 then none else some v.id
    | none => none

/-- `getStoreItemsByType` (memory.ts lines 228-236). -/
def getStoreItemsByType (m : MemoryMap) (chatId : String) (t : StoreType) :
    List StoreItem :=
  match m.lookup chatId with
  | none => []
  | some um => um.store.filter (fun item => item.type == t)

/-- `getMostRecentVendor` (memory.ts lines 254-267): vendor entries sorted by
`lastMentioned` descending, first one or null. -/
def getMostRecentVendor (m : MemoryMap) (chatId : String) : Option StoreItem :=
  match m.lookup chatId with
  | none => none
  | some um =>
    let vendors := um.store.filter (fun item => item.type == StoreType.vendor)
    if vendors.length == 0 then none
    else (sortByLastMentionedDesc vendors).head?

/-! ### Cart (memory.ts `addToCart`, `getCart`, ...) -/

/-- The identity-key test of the cart (memory.ts lines 390-391): same
`serviceId` and same `vendorId`. -/
def cartKeyMatches (c item : CartItem) : Bool :=
  c.serviceId == item.serviceId && c.vendorId == item.vendorId

/-- The body of `addToCart` acting on one conversation's `cart` array
(memory.ts lines 389-407): if the identity key exists, increment that
line's quantity by `cartItem.quantity || 1`; otherwise push a new line with
`quantity || 1` and a fresh `addedAt`. -/
def addToCartCore (cart : List CartItem) (item : CartItem) (now : Nat) : List CartItem :=
  let idx := cart.findIdx (fun c => cartKeyMatches c item)
  if h : idx < cart.length then
    let existing := cart.get ⟨idx, h⟩
    cart.set idx { existing with quantity := existing.quantity + jsOrInt item.quantity 1 }
  else
    cart ++ [{ item with quantity := jsOrInt item.quantity 1, addedAt := now }]

/-- `addToCart` (memory.ts lines 383-408). -/
def addToCart (m : MemoryMap) (chatId : String) (item : CartItem) (now : Nat) :
    MemoryMap :=
  let (um, m') := ensureUserMemory m chatId
  mapSet m' chatId { um with cart := addToCartCore um.cart item now }

/-- `getCart` (memory.ts lines 413-416): `userMemory?.cart || []`; reads the
map without `ensureUserMemory`, so it never creates the record. The
unchanged map is returned to make that explicit. -/
def getCart (m : MemoryMap) (chatId : String) : List CartItem × MemoryMap :=
  match m.lookup chatId with
  | none => ([], m)
  | some um => (um.cart, m)

/-! ### Pagination cursor and last-shown services (memory.ts) -/

/-- `setLastServicePage` (memory.ts lines 510-513): ensure, then set. -/
def setLastServicePage (m : MemoryMap) (chatId : String) (page : Nat) : MemoryMap :=
  let (um, m') := ensureUserMemory m chatId
  mapSet m' chatId { um with lastServicePage := page }

/-- `getLastServicePage` (memory.ts lines 518-521):
`userMemory?.lastServicePage || 0`; never creates the record. -/
def getLastServicePage (m : MemoryMap) (chatId : String) : Nat :=
  match m.lookup chatId with
  | none => 0
  | some um => jsOrNat (some um.lastServicePage) 0

/-- `saveLastShownServices` (memory.ts lines 526-529): full replace. -/
def saveLastShownServices (m : MemoryMap) (chatId : String)
    (services : List LastShownService) : MemoryMap :=
  let (um, m') := ensureUserMemory m chatId
  mapSet m' chatId { um with lastShownServices := services }

/-! ### Classified intent, context and workflow router
(types/vendorFlow.ts, vendorFlow/workflowRouter.ts, cartHandler.ts,
explorationHandler.ts) -/

/-- `cartAction` values of `QueryAnalysis` (types/vendorFlow.ts). -/
inductive CartAction
  | add
  | remove
  | view
  | clear
  | update
deriving DecidableEq, Repr

/-- `QueryAnalysis` (types/vendorFlow.ts): the classifier's structured
output; optional fields become `Option`. -/
structure QueryAnalysis where
  needsLocation : Bool
  locationName : Option String
  queryType : String
  correctedQuery : Option String := none
  isCartOperation : Option Bool := none
  isPaginationRequest : Option Bool := none
  cartAction : Option CartAction := none
  serviceNames : Option (List String) := none
  quantities : Option (List Int) := none
  vendorName : Option String := none
  wantsServices : Option Bool := none
deriving DecidableEq, Repr

/-- `LocationData` (types/vendorFlow.ts). -/
structure LocationData where
  latitude : Int
  longitude : Int
  name : String
deriving DecidableEq, Repr

/-- `WorkflowContext` (types/vendorFlow.ts), without the redundant raw
`input` field (its `userId`/`chatId` are copied into the context by
`buildWorkflowContext` and the handlers read only the copies). -/
structure WorkflowContext where
  userQuery : String
  chatHistory : String
  analysis : QueryAnalysis
  location : Option LocationData
  cart : List CartItem
  userId : Option String := none
  chatId : Option String := none
deriving DecidableEq, Repr

/-- The two registered workflow handlers. -/
inductive HandlerTag
  | cartWorkflow
  | explorationWorkflow
deriving DecidableEq, Repr

/-- `CartWorkflow.canHandle` (cartHandler.ts lines 20-22):
`isCartOperation === true && !!userId`. -/
def cartCanHandle (ctx : WorkflowContext) : Bool :=
  ctx.analysis.isCartOperation == some true && truthyOptStr ctx.userId

/-- `ExplorationWorkflow.canHandle` (explorationHandler.ts lines 12-15):
`isCartOperation !== true`. -/
def explorationCanHandle (ctx : WorkflowContext) : Bool :=
  !(ctx.analysis.isCartOperation == some true)

/-- The handler list built in the `WorkflowRouter` constructor
(workflowRouter.ts lines 12-18): CartWorkflow first, then
ExplorationWorkflow. -/
def routerHandlers : List HandlerTag :=
  [HandlerTag.cartWorkflow, HandlerTag.explorationWorkflow]

/-- `canHandle` dispatched on the handler. -/
def handlerCanHandle : HandlerTag → WorkflowContext → Bool
  | HandlerTag.cartWorkflow, ctx => cartCanHandle ctx
  | HandlerTag.explorationWorkflow, ctx => explorationCanHandle ctx

/-- Which handler `WorkflowRouter.route` (workflowRouter.ts lines 23-42)
selects: the first of `routerHandlers` whose `canHandle` returns true,
`none` when no handler matches. -/
def routedHandler (ctx : WorkflowContext) : Option HandlerTag :=
  routerHandlers.find? (fun h => handlerCanHandle h ctx)

/-- `WorkflowRouter.route`, abstracted over the handlers' `execute`
functions: the selected handler's result is returned verbatim, and `null`
is returned when no handler matches. -/
def route {Output : Type} (execute : HandlerTag → WorkflowContext → Output)
    (ctx : WorkflowContext) : Option Output :=
  (routedHandler ctx).map (fun h => execute h ctx)

/-! ### ExplorationWorkflow.execute (vendorFlow/explorationHandler.ts) -/

/-- A vendor row returned by `fetchVendorsFromDB`. -/
structure Vendor where
  id : Nat
  store_name : String
deriving DecidableEq, Repr

/-- A service row returned by `fetchVendorServices`; fields the source
guards with `||` defaults are `Option`. -/
structure VendorService where
  id : Nat
  name : String
  price : Option Int := none
  discount : Option Int := none
  category_id : Option Nat := none
  category_name : Option String := none
deriving DecidableEq, Repr

/-- One category group of the services narration payload
(explorationHandler.ts lines 134-150). -/
structure ServicesCategory where
  category_id : Nat
  category_name : String
  services : List VendorService
deriving DecidableEq, Repr

/-- A call made to the external catalog collaborator. -/
inductive CatalogCall
  | nearbyVendors (latitude longitude : Int) (vendorType : String) (limit : Nat)
  | vendorServices (vendorId : Nat) (limit : Nat) (page : Nat)
deriving DecidableEq, Repr

/-- Responses of the external catalog collaborator, supplied as data. -/
structure CatalogOracle where
  nearbyVendors : Int → Int → String → Nat → List Vendor
  vendorServices : Nat → Nat → Nat → List VendorService

/-- The possible results of `ExplorationWorkflow.execute`: the
location-required error, or a "needs narration" payload of vendor services
grouped by category, or a payload of nearby vendors. -/
inductive ExplOutput
  | errorOutput (message : String)
  | servicesRefinement (data : List ServicesCategory) (message : String)
      (totalFound : Nat)
  | vendorsRefinement (data : List Vendor) (message : String) (totalFound : Nat)
deriving DecidableEq, Repr

/-- Whether `sub` is a prefix of `s`, character by character. -/
def charsPrefixEq : List Char → List Char → Bool
  | [], _ => true
  | _ :: _, [] => false
  | a :: as, b :: bs => a == b && charsPrefixEq as bs

/-- Whether `sub` occurs contiguously inside `s`. -/
def charsContains (sub : List Char) : List Char → Bool
  | [] => sub.isEmpty
  | c :: rest => charsPrefixEq sub (c :: rest) || charsContains sub rest

/-- `str.includes(sub)` on lowercased names. -/
def strIncludes (s sub : String) : Bool :=
  charsContains sub.toList s.toList

/-- Insert a service into the category groups, preserving first-seen
category order as the JavaScript `Map<number, ...>` does
(explorationHandler.ts lines 137-150). -/
def addServiceToCategories (cats : List ServicesCategory) (cid : Nat)
    (cname : String) (s : VendorService) : List ServicesCategory :=
  match cats with
  | [] => [{ category_id := cid, category_name := cname, services := [s] }]
  | c :: rest =>
      if c.category_id == cid then { c with services := c.services ++ [s] } :: rest
      else c :: addServiceToCategories rest cid cname s

/-- The per-service step of the services loop (explorationHandler.ts lines
137-177): group into categories; for services with truthy `id` and `name`,
record a `LastShownService` and save a service `StoreItem`. -/
def explorationServiceStep (chatId : String) (vid : Nat) (vendorNameShown : String)
    (now : Nat)
    (acc : List ServicesCategory × List LastShownService × MemoryMap)
    (service : VendorService) :
    List ServicesCategory × List LastShownService × MemoryMap :=
  let (cats, shown, mem) := acc
  let categoryId := jsOrNat service.category_id 0
  let categoryName := jsOrStr service.category_name "Other"
  let cats' := addServiceToCategories cats categoryId categoryName service
  if !(service.id == 0) && !(service.name == "") then
    let entry : LastShownService :=
      { serviceId := service.id
      , serviceName := service.name
      , vendorId := vid
      , vendorName := vendorNameShown
      , price := jsOrInt (service.price.getD 0) 0
      , discount := some (jsOrInt (service.discount.getD 0) 0)
      , shownAt := now }
    let mem' := saveStoreItem mem chatId
      { type := StoreType.service, id := service.id, name := service.name
      , vendorId := some vid, lastMentioned := now }
    (cats', shown ++ [entry], mem')
  else
    (cats', shown, mem)

/-- The final "fetch nearby vendors" branch of `ExplorationWorkflow.execute`
(explorationHandler.ts lines 211-248), also reached when a named vendor
could not be resolved: fetch vendors, save each one with truthy `id` and
`store_name` when a chat id is present, and return the narration payload. -/
def explorationDefaultBranch (oracle : CatalogOracle) (m : MemoryMap)
    (ctx : WorkflowContext) (location : LocationData) (now : Nat)
    (callsAcc : List CatalogCall) : ExplOutput × MemoryMap × List CatalogCall :=
  let fetched := oracle.nearbyVendors location.latitude location.longitude "Food" 50
  let call := CatalogCall.nearbyVendors location.latitude location.longitude "Food" 50
  let m' :=
    match ctx.chatId with
    | some chatId =>
        if chatId == "" then m
        else fetched.foldl (fun acc v =>
          if !(v.id == 0) && !(v.store_name == "") then
            saveStoreItem acc chatId
              { type := StoreType.vendor, id := v.id, name := v.store_name
              , lastMentioned := now }
          else acc) m
    | none => m
  (ExplOutput.vendorsRefinement fetched "Vendors retrieved successfully" fetched.length,
    m', callsAcc ++ [call])

/-- The vendor-services branch of `ExplorationWorkflow.execute`
(explorationHandler.ts lines 32-209), entered when the request names a
vendor or wants services and a chat id is present. -/
def explorationVendorBranch (oracle : CatalogOracle) (m : MemoryMap)
    (ctx : WorkflowContext) (location : LocationData) (chatId : String)
    (wantsServices : Bool) (now : Nat) : ExplOutput × MemoryMap × List CatalogCall :=
  -- lines 33-52: resolve a vendor id from memory
  let resolved : Option Nat × Option String :=
    if truthyOptStr ctx.analysis.vendorName then
      (getVendorId m chatId (ctx.analysis.vendorName.getD ""), ctx.analysis.vendorName)
    else if wantsServices then
      match getMostRecentVendor m chatId with
      | some v => (some v.id, some v.name)
      | none => (none, none)
    else (none, none)
  -- lines 60-67: when found in store, use the store entry's name
  let actualVendorName :=
    if truthyOptNat resolved.1 then
      match (getStoreItemsByType m chatId StoreType.vendor).find?
          (fun v => some v.id == resolved.1) with
      | some found => some found.name
      | none => resolved.2
    else resolved.2
  -- lines 69-115: when unresolved and a name was given, fetch vendors,
  -- register them, and fuzzy-match the name against the fetched list
  let afterFetch : Option Nat × Option String × MemoryMap × List CatalogCall :=
    if !truthyOptNat resolved.1 && truthyOptStr ctx.analysis.vendorName then
      let vname := ctx.analysis.vendorName.getD ""
      let fetched := oracle.nearbyVendors location.latitude location.longitude "Food" 50
      let call := CatalogCall.nearbyVendors location.latitude location.longitude "Food" 50
      let m' := fetched.foldl (fun acc v =>
        if !(v.id == 0) && !(v.store_name == "") then
          saveStoreItem acc chatId
            { type := StoreType.vendor, id := v.id, name := v.store_name
            , lastMentioned := now }
        else acc) m
      let normalized := jsTrim (jsToLowerCase vname)
      match fetched.find? (fun v =>
          strIncludes (jsToLowerCase v.store_name) normalized ||
          strIncludes normalized (jsToLowerCase v.store_name)) with
      | some v => (some v.id, some v.store_name, m', [call])
      | none => (resolved.1, actualVendorName, m', [call])
    else (resolved.1, actualVendorName, m, [])
  let (vendorId, shownName, m2, calls2) := afterFetch
  -- lines 117-208: when a vendor id is resolved, fetch and group its services
  if truthyOptNat vendorId then
    let vid := vendorId.getD 0
    let serviceLimit := if wantsServices then 325 else 50
    let services := oracle.vendorServices vid serviceLimit 1
    let callS := CatalogCall.vendorServices vid serviceLimit 1
    let vendorNameShown := jsOrStr shownName "Unknown"
    let (cats, shown, m3) := services.foldl
      (explorationServiceStep chatId vid vendorNameShown now) ([], [], m2)
    let m4 := if shown.length > 0 then saveLastShownServices m3 chatId shown else m3
    (ExplOutput.servicesRefinement cats ("Services for " ++ vendorNameShown)
        services.length,
      m4, calls2 ++ [callS])
  else
    explorationDefaultBranch oracle m2 ctx location now calls2

/-- `ExplorationWorkflow.execute` (explorationHandler.ts lines 17-249); the
mutable memory map and the list of catalog calls are threaded explicitly,
and `new Date()` is the `now` parameter. The location check at lines 21-26
returns the error before any catalog access or memory write. -/
def explorationExecute (oracle : CatalogOracle) (m : MemoryMap)
    (ctx : WorkflowContext) (now : Nat) : ExplOutput × MemoryMap × List CatalogCall :=
  match ctx.location with
  | none =>
      (ExplOutput.errorOutput
        "Location is required to find nearby vendors. Please provide your location.",
        m, [])
  | some location =>
    let wantsServices := ctx.analysis.wantsServices == some true
    match ctx.chatId with
    | some chatId =>
        if (truthyOptStr ctx.analysis.vendorName || wantsServices) && !(chatId == "") then
          explorationVendorBranch oracle m ctx location chatId wantsServices now
        else
          explorationDefaultBranch oracle m ctx location now []
    | none => explorationDefaultBranch oracle m ctx location now []

/-! ### Pagination offset (config/env.ts `nearbyVendorsFlow`, Step 5) -/

/-- Step 5 of `nearbyVendorsFlow` (env.ts lines 418-436): `offset` starts at
0 and becomes `(getLastServicePage(userId) + 1) * 10` when the turn is a
pagination request and a user id is present. -/
def paginationOffset (m : MemoryMap) (analysis : QueryAnalysis)
    (userId : Option String) : Nat :=
  match userId with
  | some uid =>
      if analysis.isPaginationRequest == some true && !(uid == "") then
        (getLastServicePage m uid + 1) * 10
      else 0
  | none => 0

/-! ### Classifier fallback (flows/nearbyVendors/locationHandler.ts
`analyzeUserQuery`) -/

/-- The literal returned by the `catch (parseError)` branch of
`analyzeUserQuery` (locationHandler.ts lines 198-209). -/
def analyzeFallback : QueryAnalysis :=
  { needsLocation := false
  , locationName := none
  , queryType := "general query" }

/-- The result handling of `analyzeUserQuery`: the model response either
parses into a `QueryAnalysis` (modelled as `some`) and is returned as-is, or
fails to parse (`none`) and the fallback literal is returned instead of an
exception. -/
def analyzeUserQueryResult (parsed : Option QueryAnalysis) : QueryAnalysis :=
  match parsed with
  | some a => a
  | none => analyzeFallback

/-! ## Lemmas about the cart -/

/-- Propositional form of the cart identity key. -/
def sameCartKey (a b : CartItem) : Prop :=
  a.serviceId = b.serviceId ∧ a.vendorId = b.vendorId

/-- At most one cart line per identity key. -/
def cartKeysDistinct (cart : List CartItem) : Prop :=
  cart.Pairwise (fun a b => ¬ sameCartKey a b)

theorem cartKeyMatches_iff (c item : CartItem) :
    cartKeyMatches c item = true ↔ sameCartKey c item := by
  simp [cartKeyMatches, sameCartKey]

theorem addToCartCore_nil (item : CartItem) (now : Nat) :
    addToCartCore [] item now =
      [{ item with quantity := jsOrInt item.quantity 1, addedAt := now }] := by
  simp [addToCartCore]

theorem addToCartCore_cons (c : CartItem) (cs : List CartItem) (item : CartItem)
    (now : Nat) :
    addToCartCore (c :: cs) item now =
      if cartKeyMatches c item then
        { c with quantity := c.quantity + jsOrInt item.quantity 1 } :: cs
      else c :: addToCartCore cs item now := by
  cases hp : cartKeyMatches c item with
  | true =>
      simp [addToCartCore, List.findIdx_cons, hp]
  | false =>
      simp only [addToCartCore, List.findIdx_cons, hp, cond_false, if_neg Bool.false_ne_true]
      by_cases h : cs.findIdx (fun x => cartKeyMatches x item) < cs.length
      · rw [dif_pos (by simpa using Nat.succ_lt_succ h), dif_pos h]
        rfl
      · rw [dif_neg (by simpa using fun hh => h (Nat.lt_of_succ_lt_succ hh)), dif_neg h]
        rfl

theorem mem_addToCartCore {b : CartItem} (cart : List CartItem) (item : CartItem)
    (now : Nat) (hb : b ∈ addToCartCore cart item now) :
    (∃ a ∈ cart, sameCartKey b a) ∨ sameCartKey b item := by
  induction cart with
  | nil =>
      rw [addToCartCore_nil] at hb
      simp at hb
      subst hb
      exact Or.inr ⟨rfl, rfl⟩
  | cons c cs ih =>
      rw [addToCartCore_cons] at hb
      by_cases hp : cartKeyMatches c item
      · rw [if_pos hp] at hb
        rcases List.mem_cons.mp hb with h | h
        · subst h
          exact Or.inl ⟨c, List.mem_cons_self _ _, rfl, rfl⟩
        · exact Or.inl ⟨b, List.mem_cons_of_mem _ h, rfl, rfl⟩
      · rw [if_neg hp] at hb
        rcases List.mem_cons.mp hb with h | h
        · subst h
          exact Or.inl ⟨b, List.mem_cons_self _ _, rfl, rfl⟩
        · rcases ih h with ⟨a, ha, hk⟩ | hk
          · exact Or.inl ⟨a, List.mem_cons_of_mem _ ha, hk⟩
          · exact Or.inr hk

theorem addToCartCore_distinct (cart : List CartItem) (item : CartItem) (now : Nat)
    (h : cartKeysDistinct cart) : cartKeysDistinct (addToCartCore cart item now) := by
  induction cart with
  | nil =>
      rw [addToCartCore_nil]
      exact List.pairwise_singleton _ _
  | cons c cs ih =>
      rw [addToCartCore_cons]
      rcases List.pairwise_cons.mp h with ⟨hc, hcs⟩
      by_cases hp : cartKeyMatches c item
      · rw [if_pos hp]
        exact List.pairwise_cons.mpr ⟨fun b hb => hc b hb, hcs⟩
      · rw [if_neg hp]
        refine List.pairwise_cons.mpr ⟨fun b hb => ?_, ih hcs⟩
        intro hkey
        rcases mem_addToCartCore cs item now hb with ⟨a, ha, hba⟩ | hbi
        · exact hc a ha ⟨hkey.1.trans hba.1, hkey.2.trans hba.2⟩
        · exact hp (cartKeyMatches_iff c item |>.mpr ⟨hkey.1.trans hbi.1, hkey.2.trans hbi.2⟩)

theorem addToCartCore_length_of_mem (cart : List CartItem) (item : CartItem) (now : Nat)
    (h : ∃ c ∈ cart, cartKeyMatches c item = true) :
    (addToCartCore cart item now).length = cart.length := by
  induction cart with
  | nil => simp at h
  | cons c cs ih =>
      rw [addToCartCore_cons]
      by_cases hp : cartKeyMatches c item
      · rw [if_pos hp]
        simp
      · rw [if_neg hp]
        rcases h with ⟨a, ha, hk⟩
        rcases List.mem_cons.mp ha with rfl | ha'
        · exact absurd hk hp
        · simpa using ih ⟨a, ha', hk⟩

theorem addToCartCore_of_not_mem (cart : List CartItem) (item : CartItem) (now : Nat)
    (h : ∀ c ∈ cart, cartKeyMatches c item = false) :
    addToCartCore cart item now =
      cart ++ [{ item with quantity := jsOrInt item.quantity 1, addedAt := now }] := by
  induction cart with
  | nil => exact addToCartCore_nil item now
  | cons c cs ih =>
      rw [addToCartCore_cons,
        if_neg (by simp [h c (List.mem_cons_self _ _)]),
        ih (fun a ha => h a (List.mem_cons_of_mem _ ha))]
      rfl

/-- The cart line of the cart-merge scenario. -/
def c1SampleItem : CartItem :=
  { serviceId := 1, serviceName := "Paneer Tikka", vendorId := 9
  , vendorName := "Aromas", price := 220, quantity := 1, addedAt := 0 }

/-- Claim C1: for every cart, at most one CartItem exists per identity key
(serviceId, vendorId): `addToCart` preserves key-distinctness, an add whose
key is already present leaves the number of lines unchanged (the matching
line's quantity is incremented instead), and adding the same quantity-1
item twice to an empty cart yields a single line with quantity 2. -/
theorem claim_C1_cart_identity_key :
    (∀ (cart : List CartItem) (item : CartItem) (now : Nat),
        cartKeysDistinct cart → cartKeysDistinct (addToCartCore cart item now)) ∧
    (∀ (cart : List CartItem) (item : CartItem) (now : Nat),
        (∃ c ∈ cart, cartKeyMatches c item = true) →
        (addToCartCore cart item now).length = cart.length) ∧
    addToCartCore (addToCartCore [] c1SampleItem 5) c1SampleItem 6 =
      [{ c1SampleItem with quantity := 2, addedAt := 5 }] :=
  ⟨addToCartCore_distinct, addToCartCore_length_of_mem, by decide⟩

theorem claim_C1_cart_identity_key_witness :
    cartKeysDistinct (addToCartCore [] c1SampleItem 0) ∧
    (addToCartCore [c1SampleItem] c1SampleItem 0).length = 1 :=
  ⟨claim_C1_cart_identity_key.1 [] c1SampleItem 0 (List.Pairwise.nil),
   claim_C1_cart_identity_key.2.1 [c1SampleItem] c1SampleItem 0
     ⟨c1SampleItem, List.mem_cons_self _ _, by decide⟩⟩

/-- The add carrying a negative quantity. -/
def c4NegItem : CartItem :=
  { serviceId := 3, serviceName := "Veg Pizza", vendorId := 7
  , vendorName := "Pizza Hut", price := 150, quantity := -2, addedAt := 0 }

/-- Claim C4, counterexample: an add of a fresh key carrying quantity −2 is
stored with quantity −2, not `max(1, quantity)`: the stored quantity is
below 1, refuting "an add carrying ... a negative quantity results in a
stored quantity of at least 1". -/
theorem claim_C4_counterexample :
    addToCartCore [] c4NegItem 0 = [c4NegItem] ∧ c4NegItem.quantity < 1 := by
  decide

/-- Claim C4 as amended: for every cart and every CartItem whose identity
key is not present, `addToCart` appends a new line whose quantity is
`item.quantity || 1` — i.e. `item.quantity` when it is nonzero and 1 when
it is zero; a quantity of 0 becomes 1 but a negative quantity is stored
unchanged. -/
theorem claim_C4_new_line_quantity :
    (∀ (cart : List CartItem) (item : CartItem) (now : Nat),
        (∀ c ∈ cart, cartKeyMatches c item = false) →
        addToCartCore cart item now =
          cart ++ [{ item with quantity := jsOrInt item.quantity 1, addedAt := now }]) ∧
    (∀ q : Int, jsOrInt q 1 = if q = 0 then 1 else q) :=
  ⟨addToCartCore_of_not_mem, fun q => by simp [jsOrInt]⟩

theorem claim_C4_new_line_quantity_witness :
    addToCartCore [] { c1SampleItem with quantity := 0 } 4 =
      [{ c1SampleItem with quantity := 1, addedAt := 4 }] :=
  (claim_C4_new_line_quantity.1 [] { c1SampleItem with quantity := 0 } 4
    (fun c hc => absurd hc (List.not_mem_nil c))).trans (by decide)

/-! ## Lemmas about the entity registry -/

/-- Propositional form of the registry identity key: same type, same id,
case-insensitive same name. -/
def sameStoreKey (a b : StoreItem) : Prop :=
  a.type = b.type ∧ a.id = b.id ∧ jsToLowerCase a.name = jsToLowerCase b.name

/-- Number of entries of `store` sharing `item`'s identity key. -/
def storeCount (store : List StoreItem) (item : StoreItem) : Nat :=
  (store.filter (fun x => storeKeyMatches x item)).length

theorem storeKeyMatches_iff (a b : StoreItem) :
    storeKeyMatches a b = true ↔ sameStoreKey a b := by
  simp [storeKeyMatches, sameStoreKey, and_assoc]

theorem storeKeyMatches_congr {a b : StoreItem} (h : sameStoreKey a b) (x : StoreItem) :
    storeKeyMatches x a = storeKeyMatches x b := by
  rcases h with ⟨h1, h2, h3⟩
  simp [storeKeyMatches, h1, h2, h3]

theorem upsertStoreItem_nil (item : StoreItem) : upsertStoreItem [] item = [item] := by
  simp [upsertStoreItem]

theorem upsertStoreItem_cons (x : StoreItem) (xs : List StoreItem) (item : StoreItem) :
    upsertStoreItem (x :: xs) item =
      if storeKeyMatches x item then item :: xs
      else x :: upsertStoreItem xs item := by
  cases hx : storeKeyMatches x item with
  | true =>
      simp [upsertStoreItem, List.findIdx?_cons, hx]
  | false =>
      simp only [upsertStoreItem, List.findIdx?_cons, hx, if_neg Bool.false_ne_true]
      cases h : xs.findIdx? (fun existing => storeKeyMatches existing item) with
      | some i => simp [h]
      | none => simp [h]

theorem upsertStoreItem_length_le (store : List StoreItem) (item : StoreItem) :
    (upsertStoreItem store item).length ≤ store.length + 1 := by
  unfold upsertStoreItem
  cases h : store.findIdx? (fun existing => storeKeyMatches existing item) with
  | some i => simp
  | none => simp

theorem upsertStoreItem_length_of_found (store : List StoreItem) (item : StoreItem)
    (h : ∃ x ∈ store, storeKeyMatches x item = true) :
    (upsertStoreItem store item).length = store.length := by
  induction store with
  | nil => simp at h
  | cons x xs ih =>
      rw [upsertStoreItem_cons]
      by_cases hx : storeKeyMatches x item
      · rw [if_pos hx]
        simp
      · rw [if_neg hx]
        rcases h with ⟨a, ha, hk⟩
        rcases List.mem_cons.mp ha with rfl | ha'
        · exact absurd hk hx
        · simpa using ih ⟨a, ha', hk⟩

theorem upsertStoreItem_filter (store : List StoreItem) (item : StoreItem)
    (h : storeCount store item ≤ 1) :
    (upsertStoreItem store item).filter (fun x => storeKeyMatches x item) = [item] := by
  induction store with
  | nil =>
      rw [upsertStoreItem_nil]
      simp [List.filter, storeKeyMatches]
  | cons x xs ih =>
      rw [upsertStoreItem_cons]
      have hself : storeKeyMatches item item = true := by
        simp [storeKeyMatches]
      by_cases hx : storeKeyMatches x item
      · rw [if_pos hx]
        have hxs : (xs.filter (fun x => storeKeyMatches x item)).length = 0 := by
          have h' := h
          unfold storeCount at h'
          simp only [List.filter_cons, hx, if_true, List.length_cons] at h'
          omega
        rw [List.length_eq_zero] at hxs
        simp [List.filter_cons, hself, hx, hxs]
      · rw [if_neg hx]
        have hcount : storeCount xs item ≤ 1 := by
          unfold storeCount at h ⊢
          simpa only [List.filter_cons, hx, if_false, Bool.false_eq_true] using h
        simp only [List.filter_cons, hx, if_false, Bool.false_eq_true]
        exact ih hcount

theorem saveStoreItemCore_no_evict (store : List StoreItem) (item : StoreItem)
    (h : (upsertStoreItem store item).length ≤ 500) :
    saveStoreItemCore store item = upsertStoreItem store item := by
  unfold saveStoreItemCore
  rw [if_neg (by omega)]

/-- Claim C6: for every registry state holding at most one entry with the
shared key (the invariant every reachable state satisfies) and strictly
below the 500-entry bound, upserting `a` and then `b` with the same
`(type, id, lowercase name)` key stores `b` over `a` in place: the length
does not change on the second write (no append) and the entries carrying
that key are exactly `[b]`, so the second write's `lastMentioned` is the
stored one. -/
theorem claim_C6_registry_identity (s : List StoreItem) (a b : StoreItem)
    (hab : sameStoreKey a b) (hcount : storeCount s a ≤ 1) (hlen : s.length < 500) :
    (saveStoreItemCore (saveStoreItemCore s a) b).length =
        (saveStoreItemCore s a).length ∧
    (saveStoreItemCore (saveStoreItemCore s a) b).filter
        (fun x => storeKeyMatches x b) = [b] := by
  have hlen1 : (upsertStoreItem s a).length ≤ 500 :=
    le_trans (upsertStoreItem_length_le s a) (by omega)
  have hs1 : saveStoreItemCore s a = upsertStoreItem s a :=
    saveStoreItemCore_no_evict s a hlen1
  have hfilter1 : (upsertStoreItem s a).filter (fun x => storeKeyMatches x a) = [a] :=
    upsertStoreItem_filter s a hcount
  have hcongr : (fun x => storeKeyMatches x b) = (fun x => storeKeyMatches x a) :=
    funext fun x => (storeKeyMatches_congr hab x).symm
  have hfound : ∃ x ∈ upsertStoreItem s a, storeKeyMatches x b = true := by
    refine ⟨a, ?_, (storeKeyMatches_iff a b).mpr hab⟩
    have : a ∈ (upsertStoreItem s a).filter (fun x => storeKeyMatches x a) := by
      rw [hfilter1]; exact List.mem_singleton_self a
    exact List.mem_of_mem_filter this
  have hlen2 : (upsertStoreItem (upsertStoreItem s a) b).length ≤ 500 := by
    rw [upsertStoreItem_length_of_found _ _ hfound]
    exact hlen1
  have hs2 : saveStoreItemCore (upsertStoreItem s a) b =
      upsertStoreItem (upsertStoreItem s a) b :=
    saveStoreItemCore_no_evict _ _ hlen2
  have hcount2 : storeCount (upsertStoreItem s a) b ≤ 1 := by
    unfold storeCount
    rw [hcongr, hfilter1]
    exact le_refl 1
  constructor
  · rw [hs1, hs2, upsertStoreItem_length_of_found _ _ hfound]
  · rw [hs1, hs2]
    exact upsertStoreItem_filter _ b hcount2

/-- Two registry writes sharing the key `(vendor, 12, "aromas")`. -/
def c6FirstWrite : StoreItem :=
  { type := StoreType.vendor, id := 12, name := "Aromas", lastMentioned := 10 }

/-- Second write: same key, later `lastMentioned`. -/
def c6SecondWrite : StoreItem :=
  { type := StoreType.vendor, id := 12, name := "AROMAS", lastMentioned := 20 }

theorem claim_C6_registry_identity_witness :
    (saveStoreItemCore (saveStoreItemCore [] c6FirstWrite) c6SecondWrite).length =
        (saveStoreItemCore [] c6FirstWrite).length ∧
    (saveStoreItemCore (saveStoreItemCore [] c6FirstWrite) c6SecondWrite).filter
        (fun x => storeKeyMatches x c6SecondWrite) = [c6SecondWrite] :=
  claim_C6_registry_identity [] c6FirstWrite c6SecondWrite
    (by constructor
        · rfl
        · exact ⟨rfl, by decide⟩)
    (by decide) (by decide)

/-! ## Router dispatch (claims C2) -/

/-- A minimal classified intent marking a cart operation. -/
def cartOpAnalysis : QueryAnalysis :=
  { needsLocation := false
  , locationName := none
  , queryType := "cart"
  , isCartOperation := some true
  , cartAction := some CartAction.add }

/-- A cart-operation context with no user id: `CartWorkflow.canHandle`
requires `!!userId`, so no handler matches it. -/
def c2NoUserCtx : WorkflowContext :=
  { userQuery := "add this"
  , chatHistory := ""
  , analysis := cartOpAnalysis
  , location := none
  , cart := []
  , userId := none
  , chatId := none }

/-- Claim C2, counterexample: a context flagged `isCartOperation = true` but
carrying no user id is dispatched to no handler at all — `route` returns
null — rather than to CartWorkflow, because `CartWorkflow.canHandle` also
requires a truthy `userId` and `ExplorationWorkflow.canHandle` rejects cart
operations. -/
theorem claim_C2_counterexample :
    c2NoUserCtx.analysis.isCartOperation = some true ∧
    routedHandler c2NoUserCtx = none := by
  decide

/-- Claim C2 as amended: a context with `isCartOperation = true` and a
truthy user id always dispatches to CartWorkflow, whose `execute` result is
returned verbatim; a context with `isCartOperation = true` is never
dispatched to ExplorationWorkflow (with a falsy user id no handler matches
and the router returns null). -/
theorem claim_C2_router_precedence (ctx : WorkflowContext)
    (hcart : ctx.analysis.isCartOperation = some true) :
    (truthyOptStr ctx.userId = true →
      routedHandler ctx = some HandlerTag.cartWorkflow ∧
      ∀ (Output : Type) (execute : HandlerTag → WorkflowContext → Output),
        route execute ctx = some (execute HandlerTag.cartWorkflow ctx)) ∧
    routedHandler ctx ≠ some HandlerTag.explorationWorkflow ∧
    (truthyOptStr ctx.userId = false → routedHandler ctx = none) := by
  have hexp : explorationCanHandle ctx = false := by
    simp [explorationCanHandle, hcart]
  refine ⟨fun huser => ?_, ?_, fun huser => ?_⟩
  · have hcan : cartCanHandle ctx = true := by
      simp [cartCanHandle, hcart, huser]
    constructor
    · simp [routedHandler, routerHandlers, List.find?, handlerCanHandle, hcan]
    · intro Output execute
      simp [route, routedHandler, routerHandlers, List.find?, handlerCanHandle, hcan]
  · cases hcan : cartCanHandle ctx with
    | true =>
        simp [routedHandler, routerHandlers, List.find?, handlerCanHandle, hcan]
    | false =>
        simp [routedHandler, routerHandlers, List.find?, handlerCanHandle, hcan, hexp]
  · have hcan : cartCanHandle ctx = false := by
      simp [cartCanHandle, huser]
    simp [routedHandler, routerHandlers, List.find?, handlerCanHandle, hcan, hexp]

/-- The same cart-operation context with a user id present. -/
def c2UserCtx : WorkflowContext :=
  { c2NoUserCtx with userId := some "user-1" }

theorem claim_C2_router_precedence_witness :
    routedHandler c2UserCtx = some HandlerTag.cartWorkflow ∧
    routedHandler c2UserCtx ≠ some HandlerTag.explorationWorkflow :=
  ⟨((claim_C2_router_precedence c2UserCtx rfl).1 (by decide)).1,
   (claim_C2_router_precedence c2UserCtx rfl).2.1⟩

/-! ## Pagination offset (claim C8) -/

/-- Claim C8: for a conversation whose stored page cursor is `p`, a turn
classified with `isPaginationRequest = true` and carrying a (nonempty) user
id computes the catalog offset `(p + 1) * 10`; with `p = 1` the offset
is 20. -/
theorem claim_C8_pagination_offset (m : MemoryMap) (uid : String)
    (analysis : QueryAnalysis) (p : Nat)
    (huid : uid ≠ "")
    (hpage : getLastServicePage m uid = p)
    (hpag : analysis.isPaginationRequest = some true) :
    paginationOffset m analysis (some uid) = (p + 1) * 10 := by
  have hb : (analysis.isPaginationRequest == some true && !(uid == "")) = true := by
    simp [hpag, huid]
  simp [paginationOffset, hb, hpage]

theorem claim_C8_pagination_offset_witness :
    paginationOffset [("u", { emptyUserMemory with lastServicePage := 1 })]
      { cartOpAnalysis with isPaginationRequest := some true } (some "u") = 20 :=
  claim_C8_pagination_offset _ "u" _ 1 (by decide) (by decide) rfl

/-! ## Classifier fallback (claim C9) -/

/-- Claim C9, counterexample: when the classifier response cannot be parsed,
`analyzeUserQuery` returns the fallback with `needsLocation = false`, not
the claimed safe default `needsLocation = true`. -/
theorem claim_C9_counterexample :
    (analyzeUserQueryResult none).needsLocation = false := by
  decide

/-- Claim C9 as amended: whenever the classifier response cannot be parsed,
the classification degrades — without raising — to the fallback
`{needsLocation: false, locationName: null, queryType: "general query"}`,
which sets no cart action; `needsLocation` is false, not true. -/
theorem claim_C9_classifier_fallback :
    analyzeUserQueryResult none = analyzeFallback ∧
    analyzeFallback.needsLocation = false ∧
    analyzeFallback.locationName = none ∧
    analyzeFallback.queryType = "general query" ∧
    analyzeFallback.isCartOperation = none ∧
    analyzeFallback.cartAction = none := by
  refine ⟨rfl, rfl, rfl, rfl, rfl, rfl⟩

/-! ## Conversation lifecycle (claim C10) -/

/-- Claim C10, counterexample: reading the cart of a fresh session
identifier returns the empty cart but does not create the Conversation
record — the map is left unchanged and still has no entry for the
identifier. -/
theorem claim_C10_counterexample :
    getCart [] "session-1" = ([], []) ∧
    (List.lookup "session-1" (getCart [] "session-1").2).isSome = false := by
  decide

theorem lookup_mapSet_self (m : MemoryMap) (id : String) (v : UserMemory) :
    List.lookup id (mapSet m id v) = some v := by
  induction m with
  | nil => simp [mapSet, List.lookup]
  | cons kv rest ih =>
      obtain ⟨k', v'⟩ := kv
      by_cases h : k' = id
      · simp [mapSet, h, List.lookup]
      · have hne : (id == k') = false := by simpa using Ne.symm h
        simp only [mapSet, beq_iff_eq, if_neg h, List.lookup, hne]
        exact ih

/-- Claim C10 as amended: the Conversation record is created on the first
operation that goes through `ensureUserMemory` — saving a message, a
location, a store item, a cart add, the page cursor or the last-shown
list — while the read-only operations (`getCart`, `getChatHistory`,
`getUserLocation`; likewise `getLastServicePage`, which returns only a
number) read the map without creating the record, leaving it unchanged. -/
theorem claim_C10_conversation_lifecycle :
    (∀ (m : MemoryMap) (id : String) (r : Role) (c : String) (t : Nat),
        (List.lookup id (saveMessage m id r c t)).isSome = true) ∧
    (∀ (m : MemoryMap) (id : String) (loc : UserLocation),
        (List.lookup id (saveUserLocation m id loc)).isSome = true) ∧
    (∀ (m : MemoryMap) (id : String) (item : StoreItem),
        (List.lookup id (saveStoreItem m id item)).isSome = true) ∧
    (∀ (m : MemoryMap) (id : String) (item : CartItem) (t : Nat),
        (List.lookup id (addToCart m id item t)).isSome = true) ∧
    (∀ (m : MemoryMap) (id : String) (p : Nat),
        (List.lookup id (setLastServicePage m id p)).isSome = true) ∧
    (∀ (m : MemoryMap) (id : String) (s : List LastShownService),
        (List.lookup id (saveLastShownServices m id s)).isSome = true) ∧
    (∀ (m : MemoryMap) (id : String), (getCart m id).2 = m) ∧
    (∀ (m : MemoryMap) (id : String) (limit : Nat), (getChatHistory m id limit).2 = m) ∧
    (∀ (m : MemoryMap) (id : String), (getUserLocation m id).2 = m) := by
  refine ⟨?_, ?_, ?_, ?_, ?_, ?_, ?_, ?_, ?_⟩
  · intro m id r c t
    rcases h : ensureUserMemory m id with ⟨um, m'⟩
    simp [saveMessage, h, lookup_mapSet_self]
  · intro m id loc
    rcases h : ensureUserMemory m id with ⟨um, m'⟩
    simp [saveUserLocation, h, lookup_mapSet_self]
  · intro m id item
    rcases h : ensureUserMemory m id with ⟨um, m'⟩
    simp [saveStoreItem, h, lookup_mapSet_self]
  · intro m id item t
    rcases h : ensureUserMemory m id with ⟨um, m'⟩
    simp [addToCart, h, lookup_mapSet_self]
  · intro m id p
    rcases h : ensureUserMemory m id with ⟨um, m'⟩
    simp [setLastServicePage, h, lookup_mapSet_self]
  · intro m id s
    rcases h : ensureUserMemory m id with ⟨um, m'⟩
    simp [saveLastShownServices, h, lookup_mapSet_self]
  · intro m id
    cases h : List.lookup id m <;> simp [getCart, h]
  · intro m id limit
    cases h : List.lookup id m <;> simp [getChatHistory, h]
  · intro m id
    cases h : List.lookup id m <;> simp [getUserLocation, h]

/-! ## Message-history bound (claim C5) -/

/-- The `k`-th message of the 150-message scenario. -/
def c5Message (k : Nat) : ChatMessage :=
  { role := Role.user, content := "m", timestamp := k }

/-- The conversation map after appending 150 messages to one conversation. -/
def c5Run : MemoryMap :=
  (List.range 150).foldl (fun mm k => saveMessage mm "conv" Role.user "m" k) []

/-- The resulting message history of that conversation. -/
def c5History : List ChatMessage :=
  match List.lookup "conv" c5Run with
  | some um => um.messages
  | none => []

set_option maxRecDepth 40000 in
/-- Claim C5: the message history never exceeds 100 entries — one append
keeps any history at or below the bound — and after appending 150 messages
to one conversation exactly the most recent 100 remain, in their original
oldest-first order (the run equals the input sequence with its oldest 50
dropped). -/
theorem claim_C5_history_bound :
    (∀ (msgs : List ChatMessage) (msg : ChatMessage),
        msgs.length ≤ 100 → (appendMessageCore msgs msg).length ≤ 100) ∧
    c5History = ((List.range 150).map c5Message).drop 50 ∧
    c5History.length = 100 := by
  refine ⟨?_, ?_, ?_⟩
  · intro msgs msg h
    unfold appendMessageCore
    by_cases hlen : (msgs ++ [msg]).length > 100
    · rw [if_pos hlen]
      simpa [List.length_tail] using h
    · rw [if_neg hlen]
      omega
  · decide
  · decide

theorem claim_C5_history_bound_witness :
    (appendMessageCore [] (c5Message 0)).length ≤ 100 :=
  claim_C5_history_bound.1 [] (c5Message 0) (by decide)

/-! ## Exploration without a location (claim C7) -/

/-- Claim C7: for every exploration turn (not flagged as a cart operation)
in which no location is resolved, `ExplorationWorkflow.execute` returns the
"location required" error, performs no catalog call, and leaves the
session state untouched. -/
theorem claim_C7_location_required (oracle : CatalogOracle) (m : MemoryMap)
    (ctx : WorkflowContext) (now : Nat)
    (_hnotcart : ctx.analysis.isCartOperation ≠ some true)
    (hloc : ctx.location = none) :
    explorationExecute oracle m ctx now =
      (ExplOutput.errorOutput
        "Location is required to find nearby vendors. Please provide your location.",
        m, []) := by
  unfold explorationExecute
  rw [hloc]

/-- A catalog collaborator that would return no rows. -/
def c7Oracle : CatalogOracle :=
  { nearbyVendors := fun _ _ _ _ => []
  , vendorServices := fun _ _ _ => [] }

/-- An exploration context with no resolved location. -/
def c7Ctx : WorkflowContext :=
  { userQuery := "show nearby vendors"
  , chatHistory := ""
  , analysis :=
      { needsLocation := true, locationName := none, queryType := "nearby vendors" }
  , location := none
  , cart := []
  , userId := some "u"
  , chatId := some "u" }

theorem claim_C7_location_required_witness :
    explorationExecute c7Oracle [] c7Ctx 0 =
      (ExplOutput.errorOutput
        "Location is required to find nearby vendors. Please provide your location.",
        [], []) :=
  claim_C7_location_required c7Oracle [] c7Ctx 0 (by decide) rfl

/-! ## Registry bound and LRU eviction (claim C3) -/

/-- The `k`-th vendor entry of the 600-insert scenario: all ids distinct,
`lastMentioned` strictly decreasing in insertion order, so that mention
recency disagrees with insertion order and the two eviction policies are
distinguishable. -/
def c3Vendor (k : Nat) : StoreItem :=
  { type := StoreType.vendor, id := k, name := "v", lastMentioned := 601 - k }

/-- The registry after upserting `c3Vendor 1 .. c3Vendor n` in order. -/
def c3RegistryAfter (n : Nat) : List StoreItem :=
  (List.range n).foldl (fun st i => saveStoreItemCore st (c3Vendor (i + 1))) []

/-- The first `n` scenario entries in insertion order. -/
def c3Ascending (n : Nat) : List StoreItem :=
  (List.range n).map (fun i => c3Vendor (i + 1))

theorem c3Ascending_length (n : Nat) : (c3Ascending n).length = n := by
  simp [c3Ascending]

theorem c3RegistryAfter_succ (n : Nat) :
    c3RegistryAfter (n + 1) =
      saveStoreItemCore (c3RegistryAfter n) (c3Vendor (n + 1)) := by
  unfold c3RegistryAfter
  rw [List.range_succ, List.foldl_append]
  rfl

theorem c3_key_false {j n : Nat} (h : j ≠ n) :
    storeKeyMatches (c3Vendor j) (c3Vendor n) = false := by
  simp [storeKeyMatches, c3Vendor, h]

theorem upsertStoreItem_of_not_found (store : List StoreItem) (item : StoreItem)
    (h : ∀ x ∈ store, storeKeyMatches x item = false) :
    upsertStoreItem store item = store ++ [item] := by
  induction store with
  | nil => exact upsertStoreItem_nil item
  | cons x xs ih =>
      rw [upsertStoreItem_cons,
        if_neg (by simp [h x (List.mem_cons_self _ _)]),
        ih (fun a ha => h a (List.mem_cons_of_mem _ ha))]
      rfl

theorem c3_upsert (n : Nat) :
    upsertStoreItem (c3Ascending n) (c3Vendor (n + 1)) = c3Ascending (n + 1) := by
  rw [upsertStoreItem_of_not_found]
  · unfold c3Ascending
    rw [List.range_succ, List.map_append]
    simp
  · intro x hx
    rcases List.mem_map.mp hx with ⟨i, hi, rfl⟩
    exact c3_key_false (by have := List.mem_range.mp hi; omega)

/-- Non-increasing `lastMentioned`, the order the eviction sort produces. -/
def SortedByMentionDesc (l : List StoreItem) : Prop :=
  l.Pairwise (fun a b => b.lastMentioned ≤ a.lastMentioned)

theorem insertByLastMentioned_of_ge (x : StoreItem) (l : List StoreItem)
    (h : ∀ y ∈ l, y.lastMentioned ≤ x.lastMentioned) :
    insertByLastMentioned x l = x :: l := by
  cases l with
  | nil => rfl
  | cons y ys =>
      unfold insertByLastMentioned
      rw [if_pos (h y (List.mem_cons_self _ _))]

theorem sortByLastMentionedDesc_of_sorted (l : List StoreItem)
    (h : SortedByMentionDesc l) : sortByLastMentionedDesc l = l := by
  induction l with
  | nil => rfl
  | cons x xs ih =>
      rcases List.pairwise_cons.mp h with ⟨hx, hxs⟩
      unfold sortByLastMentionedDesc
      rw [ih hxs]
      exact insertByLastMentioned_of_ge x xs hx

theorem c3Ascending_sorted (n : Nat) : SortedByMentionDesc (c3Ascending n) := by
  unfold SortedByMentionDesc c3Ascending
  rw [List.pairwise_map]
  exact (List.pairwise_lt_range n).imp (fun {i j} hij => by simp [c3Vendor]; omega)

theorem c3_phase1 : ∀ n, n ≤ 500 → c3RegistryAfter n = c3Ascending n := by
  intro n
  induction n with
  | zero => intro _; rfl
  | succ n ih =>
      intro h
      rw [c3RegistryAfter_succ, ih (by omega)]
      unfold saveStoreItemCore
      rw [c3_upsert n, if_neg (by rw [c3Ascending_length]; omega)]

theorem c3_absorb (n : Nat) (hn : 500 ≤ n) :
    saveStoreItemCore (c3Ascending 500) (c3Vendor (n + 1)) = c3Ascending 500 := by
  have hup : upsertStoreItem (c3Ascending 500) (c3Vendor (n + 1)) =
      c3Ascending 500 ++ [c3Vendor (n + 1)] := by
    apply upsertStoreItem_of_not_found
    intro x hx
    rcases List.mem_map.mp hx with ⟨i, hi, rfl⟩
    exact c3_key_false (by have := List.mem_range.mp hi; omega)
  have hsorted : SortedByMentionDesc (c3Ascending 500 ++ [c3Vendor (n + 1)]) := by
    unfold SortedByMentionDesc
    rw [List.pairwise_append]
    refine ⟨c3Ascending_sorted 500, List.pairwise_singleton _ _, ?_⟩
    intro a ha b hb
    rcases List.mem_map.mp ha with ⟨i, hi, rfl⟩
    rcases List.mem_singleton.mp hb with rfl
    have := List.mem_range.mp hi
    simp [c3Vendor]
    omega
  unfold saveStoreItemCore
  rw [hup, if_pos (by simp [c3Ascending_length]),
    sortByLastMentionedDesc_of_sorted _ hsorted]
  have : (c3Ascending 500 ++ [c3Vendor (n + 1)]).take 500 =
      (c3Ascending 500 ++ [c3Vendor (n + 1)]).take (c3Ascending 500).length := by
    rw [c3Ascending_length]
  rw [this, List.take_left]

theorem c3_phase2 : ∀ k, c3RegistryAfter (500 + k) = c3Ascending 500 := by
  intro k
  induction k with
  | zero => exact c3_phase1 500 (by omega)
  | succ k ih =>
      have : 500 + (k + 1) = (500 + k) + 1 := by omega
      rw [this, c3RegistryAfter_succ, ih, c3_absorb (500 + k) (by omega)]

/-- Claim C3: after 600 upserts of distinct vendor entries into one
conversation's registry, exactly 500 entries remain; they are precisely
the 500 entries with the greatest `lastMentioned` (timestamps 101–600),
while every entry whose `lastMentioned` fell in 1–100 was evicted even
though those were the 100 most recently inserted — LRU-by-mention, not
insertion order. -/
theorem claim_C3_registry_bound :
    c3RegistryAfter 600 = c3Ascending 500 ∧
    (c3RegistryAfter 600).length = 500 ∧
    (∀ e ∈ c3RegistryAfter 600, 101 ≤ e.lastMentioned ∧ e.lastMentioned ≤ 600) ∧
    (∀ j, 501 ≤ j → j ≤ 600 → c3Vendor j ∉ c3RegistryAfter 600) := by
  have h600 : c3RegistryAfter 600 = c3Ascending 500 := c3_phase2 100
  refine ⟨h600, by rw [h600, c3Ascending_length], ?_, ?_⟩
  · intro e he
    rw [h600] at he
    rcases List.mem_map.mp he with ⟨i, hi, rfl⟩
    have := List.mem_range.mp hi
    simp [c3Vendor]
    omega
  · intro j h1 h2 hmem
    rw [h600] at hmem
    rcases List.mem_map.mp hmem with ⟨i, hi, heq⟩
    have hlt := List.mem_range.mp hi
    have : i + 1 = j := congrArg StoreItem.id heq
    omega

theorem claim_C3_registry_bound_witness :
    101 ≤ (c3Vendor 1).lastMentioned ∧ c3Vendor 501 ∉ c3RegistryAfter 600 :=
  ⟨(claim_C3_registry_bound.2.2.1 (c3Vendor 1)
      (by rw [claim_C3_registry_bound.1]
          exact List.mem_map.mpr ⟨0, List.mem_range.mpr (by omega), rfl⟩)).1,
   claim_C3_registry_bound.2.2.2 501 (by omega) (by omega)⟩

end WyvateAgent
